import Mathlib

/-!
Shallow embedding of the adaptive GOGC tuner (`gogctuner` package).

The Go source keeps its tunables in a `Config` struct, validated once in
`NewTuner`; the mutable tuner state (`currentGOGC`, `lastGCTime`,
`memoryLimit`, `enabled`, the force-GC timer) lives in `Tuner` and is
mutated only by `adjustGOGC` and `Stop` under one mutex.  We model:

* Go `float64` arithmetic as exact rational arithmetic (`ℚ`); the source
  only multiplies/divides small config factors and converts 64-bit
  integers, and every claim is about the algorithm-level values;
* Go `int`/`int64` as `ℤ`, `uint64` (`memStats.HeapAlloc`) as `ℕ`;
* Go's float-to-int conversion, which truncates toward zero, as `truncQ`;
* calls to `debug.SetGCPercent` (the Collector Control) as an output list
  of written trigger values;
* the runtime memory oracle and the clock as explicit arguments
  (`liveBytes`, `now`) read at each call, exactly where the source calls
  `runtime.ReadMemStats` / `time.Now`.
-/

/-- Go's `int(x)` conversion on a `float64`: truncation toward zero. -/
def truncQ (q : ℚ) : ℤ :=
  if 0 ≤ q then ⌊q⌋ else ⌈q⌉

/-- The `Config` struct of the `gogctuner` package. -/
structure Config where
  memoryHardLimit : ℤ
  safetyFactor : ℚ
  minGOGC : ℤ
  maxGOGC : ℤ
  allowPeakOverride : Bool
  peakThreshold : ℚ
  debugMode : Bool
deriving DecidableEq, Repr

/-- The defaulting rules applied to the incoming `Config` at the top of
`NewTuner`: safety factor outside `(0,1]` becomes `0.7`; nonpositive
`MinGOGC` / `MaxGOGC` become `25` / `500`; with peak override disabled the
threshold is forced to `1.0`, and with it enabled a threshold below `1.0`
becomes `1.5`. -/
def validateConfig (c : Config) : Config :=
  let sf := if c.safetyFactor ≤ 0 ∨ 1 < c.safetyFactor then 7/10 else c.safetyFactor
  let mn := if c.minGOGC ≤ 0 then 25 else c.minGOGC
  let mx := if c.maxGOGC ≤ 0 then 500 else c.maxGOGC
  let pt := if ¬ c.allowPeakOverride then 1
            else if c.peakThreshold < 1 then 3/2 else c.peakThreshold
  { c with safetyFactor := sf, minGOGC := mn, maxGOGC := mx, peakThreshold := pt }

/-- The pre-clamp trigger computation inside `adjustGOGC`, for
`liveBytes > 0`: over the safety limit the configured minimum; far below it
(with override allowed) the peak-limit formula; otherwise the safety-limit
formula, both truncated toward zero by Go's `int(...)` conversion. -/
def preClampGOGC (cfg : Config) (memoryLimit : ℤ) (liveBytes : ℕ) : ℤ :=
  let safetyLimit : ℚ := (memoryLimit : ℚ) * cfg.safetyFactor
  let peakLimit : ℚ := (memoryLimit : ℚ) * cfg.safetyFactor * cfg.peakThreshold
  if (liveBytes : ℚ) > safetyLimit then
    cfg.minGOGC
  else if cfg.allowPeakOverride = true ∧ (liveBytes : ℚ) < safetyLimit * (1/2) then
    truncQ ((peakLimit / (liveBytes : ℚ) - 1) * 100)
  else
    truncQ ((safetyLimit / (liveBytes : ℚ) - 1) * 100)

/-- The two-sided bound application at the end of `adjustGOGC`'s
`liveBytes > 0` branch: `if newGOGC < MinGOGC ... else if newGOGC > MaxGOGC`. -/
def clampGOGC (cfg : Config) (g : ℤ) : ℤ :=
  if g < cfg.minGOGC then cfg.minGOGC
  else if g > cfg.maxGOGC then cfg.maxGOGC
  else g

/-- The full new-trigger computation of `adjustGOGC`: for `liveBytes > 0`
the clamped policy value, otherwise the defensive default `100` (which the
source assigns in the `else` branch, outside the clamping code). -/
def computeNewGOGC (cfg : Config) (memoryLimit : ℤ) (liveBytes : ℕ) : ℤ :=
  if 0 < liveBytes then clampGOGC cfg (preClampGOGC cfg memoryLimit liveBytes)
  else 100

/-- The hysteresis gate of `adjustGOGC`:
`newGOGC != currentGOGC && ((new-cur)/cur > 0.1 || (cur-new)/cur > 0.1)`,
with the divisions performed in `float64` (modelled as `ℚ`). -/
def hysteresisGate (newGOGC currentGOGC : ℤ) : Prop :=
  newGOGC ≠ currentGOGC ∧
    (((newGOGC : ℚ) - (currentGOGC : ℚ)) / (currentGOGC : ℚ) > 1/10 ∨
     ((currentGOGC : ℚ) - (newGOGC : ℚ)) / (currentGOGC : ℚ) > 1/10)

instance (n c : ℤ) : Decidable (hysteresisGate n c) := by
  unfold hysteresisGate; infer_instance

/-- The mutable fields of the `Tuner` struct (the mutex is implicit in the
sequential model; `timerArmed` stands for `forceGCTimer != nil` with an
armed timer). -/
structure TunerState where
  config : Config
  currentGOGC : ℤ
  lastGCTime : ℤ
  memoryLimit : ℤ
  enabled : Bool
  timerArmed : Bool
deriving DecidableEq, Repr

/-- Result of one operation: the new tuner state and the list of trigger
values written through `debug.SetGCPercent` (Collector Control). -/
structure OpResult where
  state : TunerState
  writes : List ℤ
deriving DecidableEq, Repr

/-- `NewTuner`: validates the config and builds the tuner with
`enabled: true`.  The memory-limit resolution (explicit value → env
variable → 80% of reserved memory) and the initial GOGC (env `GOGC` or
100) read ambient process state, so their results enter as the
`memoryLimit` and `initialGOGC` arguments. -/
def newTuner (c : Config) (memoryLimit : ℤ) (initialGOGC : ℤ) (now : ℤ) : TunerState :=
  { config := validateConfig c
    currentGOGC := initialGOGC
    lastGCTime := now
    memoryLimit := memoryLimit
    enabled := true
    timerArmed := false }

/-- `adjustGOGC`: returns untouched when disabled; otherwise records the
adjustment time unconditionally, computes the new trigger from the fresh
`liveBytes` sample, and applies it (state mutation plus one
`SetGCPercent` call) only when the hysteresis gate passes. -/
def adjustGOGC (t : TunerState) (now : ℤ) (liveBytes : ℕ) : OpResult :=
  if t.enabled = true then
    let t1 := { t with lastGCTime := now }
    let newGOGC := computeNewGOGC t.config t.memoryLimit liveBytes
    if hysteresisGate newGOGC t.currentGOGC then
      { state := { t1 with currentGOGC := newGOGC }, writes := [newGOGC] }
    else
      { state := t1, writes := [] }
  else
    { state := t, writes := [] }

/-- `Start`: sets `enabled`, arms the force-GC timer (and the finalizer
hook, not separately modelled), then performs one immediate adjustment. -/
def startTuner (t : TunerState) (now : ℤ) (liveBytes : ℕ) : OpResult :=
  adjustGOGC { t with enabled := true, timerArmed := true } now liveBytes

/-- `Stop`: stops the timer when armed, disables the tuner, and
unconditionally writes the baseline trigger `100` through
`debug.SetGCPercent` — without touching `currentGOGC`. -/
def stopTuner (t : TunerState) : OpResult :=
  { state := { t with enabled := false, timerArmed := false }
    writes := [100] }

/-- One externally triggered operation on the tuner. -/
inductive Op where
  | adjust (now : ℤ) (liveBytes : ℕ)
  | start (now : ℤ) (liveBytes : ℕ)
  | stop
deriving DecidableEq, Repr

/-- Interpret one operation. -/
def step (t : TunerState) : Op → OpResult
  | .adjust now liveBytes => adjustGOGC t now liveBytes
  | .start now liveBytes => startTuner t now liveBytes
  | .stop => stopTuner t

/-- Run a list of operations, accumulating every value written through
Collector Control. -/
def runOps (t : TunerState) (ws : List ℤ) : List Op → TunerState × List ℤ
  | [] => (t, ws)
  | op :: rest =>
      let r := step t op
      runOps r.state (ws ++ r.writes) rest

/-- The last value written through Collector Control, or the initial knob
value when nothing has been written yet. -/
def lastWriteD (ws : List ℤ) (init : ℤ) : ℤ :=
  ws.getLast?.getD init

/-- A concrete valid configuration used in several concrete runs:
limit factor 0.7, bounds 25/500, peak override off. -/
def cfgPlain : Config :=
  { memoryHardLimit := 1000
    safetyFactor := 7/10
    minGOGC := 25
    maxGOGC := 500
    allowPeakOverride := false
    peakThreshold := 1
    debugMode := false }

/-- The example configuration of the spec: 500MB hard limit, factor 0.7,
bounds 25/500, peak override on with threshold 1.5. -/
def cfgPeak : Config :=
  { memoryHardLimit := 500 * 1024 * 1024
    safetyFactor := 7/10
    minGOGC := 25
    maxGOGC := 500
    allowPeakOverride := true
    peakThreshold := 3/2
    debugMode := false }

/-- A configuration whose lower trigger bound exceeds 100; it passes
validation unchanged since both bounds are positive. -/
def cfgHighMin : Config :=
  validateConfig
    { memoryHardLimit := 1000
      safetyFactor := 7/10
      minGOGC := 200
      maxGOGC := 500
      allowPeakOverride := false
      peakThreshold := 1
      debugMode := false }

/-- A configuration whose lower trigger bound exceeds its upper one; it
passes validation unchanged since both bounds are positive. -/
def cfgMinAboveMax : Config :=
  validateConfig
    { memoryHardLimit := 1000
      safetyFactor := 7/10
      minGOGC := 600
      maxGOGC := 500
      allowPeakOverride := false
      peakThreshold := 1
      debugMode := false }

/-- An enabled tuner whose current trigger already equals the value the
next sample recomputes (so the hysteresis gate does not pass). -/
def tunerSteady : TunerState :=
  { config := cfgPlain
    currentGOGC := 300
    lastGCTime := 0
    memoryLimit := 1000
    enabled := true
    timerArmed := true }

/-- A freshly constructed tuner over `cfgPlain` with knob value 100. -/
def tunerFresh : TunerState :=
  newTuner cfgPlain 1000 100 0

/-! ## Helper lemmas -/

theorem truncQ_mono {a b : ℚ} (h : a ≤ b) : truncQ a ≤ truncQ b := by
  unfold truncQ
  split_ifs with h1 h2 h2
  · exact Int.floor_le_floor h
  · exact absurd (h1.trans h) h2
  · exact le_trans (Int.ceil_le.2 (by exact_mod_cast le_of_not_le h1))
      (Int.le_floor.2 (by exact_mod_cast h2))
  · exact Int.ceil_le_ceil h

theorem truncQ_of_nonneg {a : ℚ} (h : 0 ≤ a) : truncQ a = ⌊a⌋ := by
  unfold truncQ
  exact if_pos h

theorem clampGOGC_mem (cfg : Config) (g : ℤ) (h : cfg.minGOGC ≤ cfg.maxGOGC) :
    cfg.minGOGC ≤ clampGOGC cfg g ∧ clampGOGC cfg g ≤ cfg.maxGOGC := by
  unfold clampGOGC
  split_ifs <;> omega

theorem lastWriteD_concat (ws : List ℤ) (x init : ℤ) :
    lastWriteD (ws ++ [x]) init = x := by
  simp [lastWriteD]

theorem lastWriteD_nil (init : ℤ) : lastWriteD [] init = init := by
  simp [lastWriteD]


theorem preClampGOGC_peak (cfg : Config) (memoryLimit : ℤ) (liveBytes : ℕ)
    (hle : ¬ ((liveBytes : ℚ) > (memoryLimit : ℚ) * cfg.safetyFactor))
    (hcond : cfg.allowPeakOverride = true ∧
      (liveBytes : ℚ) < (memoryLimit : ℚ) * cfg.safetyFactor * (1/2)) :
    preClampGOGC cfg memoryLimit liveBytes =
      truncQ (((memoryLimit : ℚ) * cfg.safetyFactor * cfg.peakThreshold /
        (liveBytes : ℚ) - 1) * 100) := by
  simp only [preClampGOGC]
  rw [if_neg hle, if_pos hcond]

theorem preClampGOGC_normal (cfg : Config) (memoryLimit : ℤ) (liveBytes : ℕ)
    (hle : ¬ ((liveBytes : ℚ) > (memoryLimit : ℚ) * cfg.safetyFactor))
    (hcond : ¬ (cfg.allowPeakOverride = true ∧
      (liveBytes : ℚ) < (memoryLimit : ℚ) * cfg.safetyFactor * (1/2))) :
    preClampGOGC cfg memoryLimit liveBytes =
      truncQ (((memoryLimit : ℚ) * cfg.safetyFactor / (liveBytes : ℚ) - 1) * 100) := by
  simp only [preClampGOGC]
  rw [if_neg hle, if_neg hcond]

/-! ## Claim theorems -/

/-- C8: when `liveBytes == 0` the adjustment routine yields trigger 100
regardless of the configuration and the memory limit; the division by
`liveBytes` occurs only inside the `liveBytes > 0` branch of the
definition, mirroring the source's guard. -/
theorem C8_zero_live_defaults_to_100 (cfg : Config) (memoryLimit : ℤ) :
    computeNewGOGC cfg memoryLimit 0 = 100 := by
  simp [computeNewGOGC]

/-- C9: `Stop()` always writes exactly the baseline trigger 100 through
Collector Control and disables the tuner, for every prior state — in
particular for an already-stopped or never-started tuner, on which it is a
total, harmless operation. -/
theorem C9_stop_writes_baseline (t : TunerState) :
    (stopTuner t).writes = [100] ∧ (stopTuner t).state.enabled = false ∧
      (stopTuner t).state.timerArmed = false := by
  simp [stopTuner]

/-- C10: a tuner built by `NewTuner` has `enabled = true` before `Start()`
is ever called, so an adjustment between construction and `Start()` passes
the enabled guard and can mutate state and call Collector Control (shown
on a concrete fresh tuner, which writes trigger 300); and no operation
other than `Stop` ever disables the tuner, so the disabled state is never
initial and is reachable only through `Stop`. -/
theorem C10_fresh_tuner_is_enabled :
    (∀ (c : Config) (ml g now : ℤ), (newTuner c ml g now).enabled = true) ∧
    (∀ (t : TunerState) (now : ℤ) (live : ℕ),
        (adjustGOGC t now live).state.enabled = t.enabled) ∧
    (∀ (t : TunerState) (now : ℤ) (live : ℕ),
        (startTuner t now live).state.enabled = true) ∧
    (adjustGOGC tunerFresh 1 175).writes = [300] ∧
    (adjustGOGC tunerFresh 1 175).state.currentGOGC = 300 := by
  refine ⟨fun c ml g now => rfl, ?_, ?_, ?_, ?_⟩
  · intro t now live
    simp only [adjustGOGC]
    split_ifs <;> rfl
  · intro t now live
    simp only [startTuner, adjustGOGC]
    split_ifs <;> rfl
  · norm_num [tunerFresh, adjustGOGC, newTuner, validateConfig, cfgPlain,
      computeNewGOGC, preClampGOGC, clampGOGC, truncQ, hysteresisGate]
  · norm_num [tunerFresh, adjustGOGC, newTuner, validateConfig, cfgPlain,
      computeNewGOGC, preClampGOGC, clampGOGC, truncQ, hysteresisGate]

/-- C1 counterexample: for the validated configuration `cfgHighMin`
(minimum trigger 200) and the sample `liveBytes = 0`, one run of the
adjustment computation yields 100, which lies outside
`[minTrigger, maxTrigger] = [200, 500]` — the claim's inclusion fails at
this input. -/
theorem C1_cex_zero_live_escapes_bounds :
    computeNewGOGC cfgHighMin 1000 0 = 100 ∧ cfgHighMin.minGOGC = 200 ∧
      ¬ (cfgHighMin.minGOGC ≤ computeNewGOGC cfgHighMin 1000 0 ∧
         computeNewGOGC cfgHighMin 1000 0 ≤ cfgHighMin.maxGOGC) := by
  refine ⟨by simp [computeNewGOGC], by norm_num [cfgHighMin, validateConfig], ?_⟩
  norm_num [computeNewGOGC, cfgHighMin, validateConfig]

/-- C1 (amended): for every configuration with `minTrigger ≤ maxTrigger`
and every sample with `liveBytes > 0`, the trigger value produced by one
run of the adjustment routine lies within `[minTrigger, maxTrigger]`
inclusive; when `liveBytes == 0` the routine instead returns the unclamped
default 100, which escapes the interval whenever `100 < minTrigger` or
`maxTrigger < 100`. -/
theorem C1_trigger_clamped (cfg : Config) (memoryLimit : ℤ) (liveBytes : ℕ)
    (h0 : 0 < liveBytes) (hmm : cfg.minGOGC ≤ cfg.maxGOGC) :
    cfg.minGOGC ≤ computeNewGOGC cfg memoryLimit liveBytes ∧
      computeNewGOGC cfg memoryLimit liveBytes ≤ cfg.maxGOGC := by
  unfold computeNewGOGC
  rw [if_pos h0]
  exact clampGOGC_mem cfg _ hmm

/-- C1 witness: at `cfgPlain`, limit 1000, `liveBytes = 175`, the
hypotheses hold and the computed trigger obeys the bounds. -/
theorem C1_trigger_clamped_witness :
    (0 < 175 ∧ cfgPlain.minGOGC ≤ cfgPlain.maxGOGC) ∧
      (cfgPlain.minGOGC ≤ computeNewGOGC cfgPlain 1000 175 ∧
        computeNewGOGC cfgPlain 1000 175 ≤ cfgPlain.maxGOGC) :=
  ⟨⟨by norm_num, by norm_num [cfgPlain]⟩,
    C1_trigger_clamped cfgPlain 1000 175 (by norm_num) (by norm_num [cfgPlain])⟩

/-- C6 counterexample: `cfgMinAboveMax` is a validated configuration
(both bounds positive, so validation keeps them) with minimum trigger 600
above maximum 500; at `liveBytes = 800`, which exceeds the safety limit
`1000 * 0.7 = 700`, the adjustment yields 500, not `minTrigger = 600`. -/
theorem C6_cex_min_above_max :
    ((800 : ℚ) > (1000 : ℚ) * cfgMinAboveMax.safetyFactor) ∧
      cfgMinAboveMax.minGOGC = 600 ∧
      computeNewGOGC cfgMinAboveMax 1000 800 = 500 := by
  refine ⟨by norm_num [cfgMinAboveMax, validateConfig], by norm_num [cfgMinAboveMax, validateConfig], ?_⟩
  norm_num [computeNewGOGC, preClampGOGC, clampGOGC, truncQ, cfgMinAboveMax, validateConfig]

/-- C6 (amended): for every configuration with `minTrigger ≤ maxTrigger`
and every sample with `liveBytes > safetyLimit` (and positive), the
adjustment routine yields exactly `minTrigger`; without the bound-order
hypothesis the else-if clamp can replace it by `maxTrigger`. -/
theorem C6_over_budget_yields_min (cfg : Config) (memoryLimit : ℤ) (liveBytes : ℕ)
    (h0 : 0 < liveBytes) (hmm : cfg.minGOGC ≤ cfg.maxGOGC)
    (hover : (liveBytes : ℚ) > (memoryLimit : ℚ) * cfg.safetyFactor) :
    computeNewGOGC cfg memoryLimit liveBytes = cfg.minGOGC := by
  unfold computeNewGOGC preClampGOGC clampGOGC
  rw [if_pos h0, if_pos hover]
  split_ifs <;> omega

/-- C6 witness: at `cfgPlain`, limit 1000, `liveBytes = 800 > 700`, the
hypotheses hold and the adjustment yields the minimum trigger 25. -/
theorem C6_over_budget_yields_min_witness :
    ((800 : ℚ) > (1000 : ℚ) * cfgPlain.safetyFactor) ∧
      computeNewGOGC cfgPlain 1000 800 = cfgPlain.minGOGC :=
  ⟨by norm_num [cfgPlain],
    C6_over_budget_yields_min cfgPlain 1000 800 (by norm_num)
      (by norm_num [cfgPlain]) (by norm_num [cfgPlain])⟩

/-- C3: for every positive `currentTrigger`, the source's duplicated
two-branch hysteresis comparison (together with its `newGOGC != current`
conjunct) holds exactly when `|newTrigger − currentTrigger| /
currentTrigger > 0.10`; a relative deviation of exactly 10% (in either
direction) does not pass the gate; and on an enabled tuner `adjust()`
invokes Collector Control exactly when that relative deviation exceeds
10%. -/
theorem C3_gate_is_relative_deviation :
    (∀ nw cur : ℤ, 0 < cur →
        (hysteresisGate nw cur ↔ |(nw : ℚ) - (cur : ℚ)| / (cur : ℚ) > 1/10)) ∧
    (∀ nw cur : ℤ, 0 < cur →
        ((nw : ℚ) - (cur : ℚ)) / (cur : ℚ) = 1/10 ∨
          ((nw : ℚ) - (cur : ℚ)) / (cur : ℚ) = -(1/10) →
        ¬ hysteresisGate nw cur) ∧
    (∀ (t : TunerState) (now : ℤ) (liveBytes : ℕ),
        t.enabled = true → 0 < t.currentGOGC →
        ((adjustGOGC t now liveBytes).writes ≠ [] ↔
          |((computeNewGOGC t.config t.memoryLimit liveBytes : ℤ) : ℚ) -
              (t.currentGOGC : ℚ)| / (t.currentGOGC : ℚ) > 1/10)) := by
  have key : ∀ nw cur : ℤ, 0 < cur →
      (hysteresisGate nw cur ↔ |(nw : ℚ) - (cur : ℚ)| / (cur : ℚ) > 1/10) := by
    intro nw cur hc
    have hc' : (0 : ℚ) < (cur : ℚ) := by exact_mod_cast hc
    unfold hysteresisGate
    constructor
    · rintro ⟨-, h | h⟩
      · exact lt_of_lt_of_le h (by gcongr; exact le_abs_self _)
      · refine lt_of_lt_of_le h ?_
        gcongr
        rw [abs_sub_comm]
        exact le_abs_self _
    · intro h
      have hne : nw ≠ cur := by
        intro heq
        rw [heq, sub_self, abs_zero, zero_div] at h
        norm_num at h
      refine ⟨hne, ?_⟩
      rcases le_or_lt 0 ((nw : ℚ) - (cur : ℚ)) with h0 | h0
      · left
        rwa [abs_of_nonneg h0] at h
      · right
        rw [abs_of_neg h0, neg_sub] at h
        exact h
  refine ⟨key, ?_, ?_⟩
  case refine_2 =>
    intro t now liveBytes hen hc
    by_cases hg : hysteresisGate (computeNewGOGC t.config t.memoryLimit liveBytes)
        t.currentGOGC
    · simp only [adjustGOGC, if_pos hen, if_pos hg]
      constructor
      · intro _
        exact (key _ _ hc).1 hg
      · intro _
        simp
    · simp only [adjustGOGC, if_pos hen, if_neg hg]
      constructor
      · intro h
        exact absurd rfl h
      · intro h
        exact absurd ((key _ _ hc).2 h) hg
  intro nw cur hc hten hgate
  have hc' : (0 : ℚ) < (cur : ℚ) := by exact_mod_cast hc
  have h := (key nw cur hc).1 hgate
  have hxc : |((nw : ℚ) - (cur : ℚ)) / (cur : ℚ)| = 1/10 := by
    rcases hten with hten | hten
    · rw [hten]
      exact abs_of_pos (by norm_num)
    · rw [hten, abs_neg]
      exact abs_of_pos (by norm_num)
  have hrw : |(nw : ℚ) - (cur : ℚ)| / (cur : ℚ) =
      |((nw : ℚ) - (cur : ℚ)) / (cur : ℚ)| := by
    rw [abs_div, abs_of_pos hc']
  rw [hrw, hxc] at h
  norm_num at h

/-- C3 witness: at `newTrigger = 120`, `currentTrigger = 100` the
equivalence holds and both sides are true; at `newTrigger = 110` (exactly
10% deviation) the gate does not pass. -/
theorem C3_gate_is_relative_deviation_witness :
    (0 < (100 : ℤ) ∧
      (hysteresisGate 120 100 ↔ |(120 : ℚ) - (100 : ℚ)| / (100 : ℚ) > 1/10)) ∧
      ¬ hysteresisGate 110 100 :=
  ⟨⟨by norm_num, C3_gate_is_relative_deviation.1 120 100 (by norm_num)⟩,
    C3_gate_is_relative_deviation.2.1 110 100 (by norm_num) (Or.inl (by norm_num))⟩

/-- C4 counterexample: on the enabled tuner `tunerSteady` the freshly
computed trigger (300) equals `currentTrigger`, so its relative deviation
is at most 10% and the gate does not pass — yet `adjust()` still mutates
the state: `lastGCTime` (the spec's `lastAdjustTime`) moves from 0 to the
call time 5, refuting "the whole tuner state is unchanged". -/
theorem C4_cex_last_adjust_time_moves :
    computeNewGOGC tunerSteady.config tunerSteady.memoryLimit 175 = 300 ∧
      tunerSteady.currentGOGC = 300 ∧
      (adjustGOGC tunerSteady 5 175).writes = [] ∧
      (adjustGOGC tunerSteady 5 175).state.currentGOGC = tunerSteady.currentGOGC ∧
      (adjustGOGC tunerSteady 5 175).state.lastGCTime = 5 ∧
      tunerSteady.lastGCTime = 0 := by
  refine ⟨?_, by norm_num [tunerSteady], ?_, ?_, ?_, by norm_num [tunerSteady]⟩ <;>
    norm_num [tunerSteady, adjustGOGC, computeNewGOGC, preClampGOGC, clampGOGC,
      truncQ, hysteresisGate, cfgPlain]

/-- C4 (amended): on an enabled tuner, when the hysteresis gate fails the
adjustment leaves `currentTrigger` unchanged and makes no Collector
Control call, but it always overwrites `lastGCTime` with the call time;
when the gate passes it sets `currentTrigger` to the computed value,
writes it once, and likewise stamps `lastGCTime`. -/
theorem C4_frame_effect (t : TunerState) (now : ℤ) (liveBytes : ℕ)
    (hen : t.enabled = true) :
    (¬ hysteresisGate (computeNewGOGC t.config t.memoryLimit liveBytes) t.currentGOGC →
      (adjustGOGC t now liveBytes).state.currentGOGC = t.currentGOGC ∧
        (adjustGOGC t now liveBytes).writes = [] ∧
        (adjustGOGC t now liveBytes).state.lastGCTime = now) ∧
    (hysteresisGate (computeNewGOGC t.config t.memoryLimit liveBytes) t.currentGOGC →
      (adjustGOGC t now liveBytes).state.currentGOGC =
          computeNewGOGC t.config t.memoryLimit liveBytes ∧
        (adjustGOGC t now liveBytes).writes =
          [computeNewGOGC t.config t.memoryLimit liveBytes] ∧
        (adjustGOGC t now liveBytes).state.lastGCTime = now) := by
  simp only [adjustGOGC, if_pos hen]
  constructor
  · intro hg
    rw [if_neg hg]
    exact ⟨rfl, rfl, rfl⟩
  · intro hg
    rw [if_pos hg]
    exact ⟨rfl, rfl, rfl⟩

/-- C4 witness: on the fresh tuner the gate passes (300 vs 100), and the
amended theorem yields the applied write and the stamped time. -/
theorem C4_frame_effect_witness :
    (adjustGOGC tunerFresh 1 175).state.currentGOGC =
        computeNewGOGC tunerFresh.config tunerFresh.memoryLimit 175 ∧
      (adjustGOGC tunerFresh 1 175).writes =
        [computeNewGOGC tunerFresh.config tunerFresh.memoryLimit 175] ∧
      (adjustGOGC tunerFresh 1 175).state.lastGCTime = 1 :=
  (C4_frame_effect tunerFresh 1 175 (by norm_num [tunerFresh, newTuner])).2
    (by norm_num [tunerFresh, newTuner, validateConfig, cfgPlain, computeNewGOGC,
      preClampGOGC, clampGOGC, truncQ, hysteresisGate])

/-- C5 counterexample: starting from the fresh tuner (knob value 100), one
applied adjustment writes 300 and then `Stop()` writes 100 — after this
trace Collector Control last received 100, yet `currentGOGC` still holds
300, because `Stop` restores the collector's default without updating the
tuner's own field.  The claimed invariant fails after `Stop()`. -/
theorem C5_cex_stop_breaks_invariant :
    (runOps tunerFresh [] [Op.adjust 1 175, Op.stop]).2 = [300, 100] ∧
      (runOps tunerFresh [] [Op.adjust 1 175, Op.stop]).1.currentGOGC = 300 ∧
      lastWriteD [300, 100] 100 = 100 ∧ (300 : ℤ) ≠ 100 := by
  refine ⟨?_, ?_, by norm_num [lastWriteD], by norm_num⟩ <;>
    norm_num [runOps, step, tunerFresh, adjustGOGC, stopTuner, newTuner,
      validateConfig, cfgPlain, computeNewGOGC, preClampGOGC, clampGOGC,
      truncQ, hysteresisGate]

/-- C5 (amended): `adjust()` preserves the invariant "`currentGOGC` equals
the last value written through Collector Control, initially the knob
value" — whether it applies the new trigger or discards it — but `Stop()`
does not: it always writes the baseline 100 while leaving `currentGOGC` at
its prior value. -/
theorem C5_current_tracks_last_write :
    (∀ (t : TunerState) (now : ℤ) (liveBytes : ℕ) (init : ℤ) (ws : List ℤ),
        t.currentGOGC = lastWriteD ws init →
        (adjustGOGC t now liveBytes).state.currentGOGC =
          lastWriteD (ws ++ (adjustGOGC t now liveBytes).writes) init) ∧
    (∀ t : TunerState,
        (stopTuner t).writes = [100] ∧
          (stopTuner t).state.currentGOGC = t.currentGOGC) := by
  constructor
  · intro t now liveBytes init ws hinv
    simp only [adjustGOGC]
    split_ifs with hen hg
    · rw [lastWriteD_concat]
    · simpa using hinv
    · simpa using hinv
  · intro t
    exact ⟨rfl, rfl⟩

/-- C5 witness: on the fresh tuner with no prior writes the invariant
hypothesis holds, and after the applied adjustment `currentGOGC` again
equals the last written value. -/
theorem C5_current_tracks_last_write_witness :
    tunerFresh.currentGOGC = lastWriteD [] 100 ∧
      (adjustGOGC tunerFresh 1 175).state.currentGOGC =
        lastWriteD ([] ++ (adjustGOGC tunerFresh 1 175).writes) 100 :=
  ⟨by norm_num [tunerFresh, newTuner, lastWriteD],
    C5_current_tracks_last_write.1 tunerFresh 1 175 100 []
      (by norm_num [tunerFresh, newTuner, lastWriteD])⟩

/-- C2 counterexample: in the normal branch at limit 1000, factor 0.7,
`liveBytes = 600`, the code's pre-clamp trigger is `int((700/600−1)*100) =
16` (truncation toward zero), while `round((700/600−1)*100) = round(16.67)
= 17` — the claimed rounding disagrees with the code at this input. -/
theorem C2_cex_truncation_not_rounding :
    preClampGOGC cfgPlain 1000 600 = 16 ∧
      round ((((1000 : ℚ) * cfgPlain.safetyFactor) / (600 : ℚ) - 1) * 100) = 17 ∧
      (16 : ℤ) ≠ 17 := by
  refine ⟨by norm_num [preClampGOGC, truncQ, cfgPlain], ?_, by norm_num⟩
  rw [round_eq]
  norm_num [cfgPlain]

/-- C2 (amended): in the peak-override branch and the normal branch the
pre-clamp trigger equals the truncation toward zero — here the floor,
since the value is nonnegative — of `(ceiling / liveBytes − 1) * 100`,
with ceiling `peakLimit` respectively `safetyLimit` (not the rounding, see
the counterexample); and for `memoryHardLimit = 500MB`, factor 0.7,
bounds 25/500, threshold 1.5, `liveBytes = 100MB` the adjustment yields
425 exactly, as that value has no fractional part. -/
theorem C2_trigger_formula (cfg : Config) (memoryLimit : ℤ) (liveBytes : ℕ)
    (h0 : 0 < liveBytes) (hpt : 1 ≤ cfg.peakThreshold)
    (hle : ¬ ((liveBytes : ℚ) > (memoryLimit : ℚ) * cfg.safetyFactor)) :
    (cfg.allowPeakOverride = true ∧
        (liveBytes : ℚ) < (memoryLimit : ℚ) * cfg.safetyFactor * (1/2) →
      preClampGOGC cfg memoryLimit liveBytes =
        ⌊((memoryLimit : ℚ) * cfg.safetyFactor * cfg.peakThreshold /
            (liveBytes : ℚ) - 1) * 100⌋) ∧
    (¬ (cfg.allowPeakOverride = true ∧
        (liveBytes : ℚ) < (memoryLimit : ℚ) * cfg.safetyFactor * (1/2)) →
      preClampGOGC cfg memoryLimit liveBytes =
        ⌊((memoryLimit : ℚ) * cfg.safetyFactor / (liveBytes : ℚ) - 1) * 100⌋) ∧
    computeNewGOGC cfgPeak (500 * 1024 * 1024) (100 * 1024 * 1024) = 425 := by
  have hl : (0 : ℚ) < (liveBytes : ℚ) := by exact_mod_cast h0
  have hsl : (liveBytes : ℚ) ≤ (memoryLimit : ℚ) * cfg.safetyFactor := le_of_not_lt hle
  have hsl0 : (0 : ℚ) ≤ (memoryLimit : ℚ) * cfg.safetyFactor := le_trans hl.le hsl
  refine ⟨?_, ?_, ?_⟩
  · intro hcond
    simp only [preClampGOGC]
    rw [if_neg hle, if_pos hcond]
    apply truncQ_of_nonneg
    have hup : (memoryLimit : ℚ) * cfg.safetyFactor ≤
        (memoryLimit : ℚ) * cfg.safetyFactor * cfg.peakThreshold := by
      nlinarith [mul_nonneg hsl0 (sub_nonneg.2 hpt)]
    have h1 : (1 : ℚ) ≤ (memoryLimit : ℚ) * cfg.safetyFactor * cfg.peakThreshold /
        (liveBytes : ℚ) := by
      rw [le_div_iff₀ hl, one_mul]
      linarith
    exact mul_nonneg (by linarith) (by norm_num)
  · intro hcond
    simp only [preClampGOGC]
    rw [if_neg hle, if_neg hcond]
    apply truncQ_of_nonneg
    have h1 : (1 : ℚ) ≤ (memoryLimit : ℚ) * cfg.safetyFactor / (liveBytes : ℚ) := by
      rw [le_div_iff₀ hl, one_mul]
      exact hsl
    exact mul_nonneg (by linarith) (by norm_num)
  · norm_num [computeNewGOGC, preClampGOGC, clampGOGC, truncQ, cfgPeak]

/-- C2 witness: at `cfgPeak` (validated: threshold 1.5 ≥ 1), 500MB limit
and 100MB live, the hypotheses hold; the peak branch applies and its
formula gives 425. -/
theorem C2_trigger_formula_witness :
    ((0 : ℕ) < 100 * 1024 * 1024 ∧ (1 : ℚ) ≤ cfgPeak.peakThreshold ∧
      ¬ (((100 * 1024 * 1024 : ℕ) : ℚ) >
          ((500 * 1024 * 1024 : ℤ) : ℚ) * cfgPeak.safetyFactor)) ∧
      computeNewGOGC cfgPeak (500 * 1024 * 1024) (100 * 1024 * 1024) = 425 :=
  ⟨⟨by norm_num, by norm_num [cfgPeak], by norm_num [cfgPeak]⟩,
    (C2_trigger_formula cfgPeak (500 * 1024 * 1024) (100 * 1024 * 1024)
      (by norm_num) (by norm_num [cfgPeak]) (by norm_num [cfgPeak])).2.2⟩

/-- C7: with `0 < liveBytes < safetyLimit * 0.5` and identical other
inputs, the pre-clamp trigger computed with peak override enabled (any
validated threshold ≥ 1) is at least the one computed with override
disabled (threshold forced to 1.0). -/
theorem C7_peak_override_widens (memoryLimit : ℤ) (sf pt : ℚ) (mn mx : ℤ)
    (liveBytes : ℕ) (h0 : 0 < liveBytes) (hpt : 1 ≤ pt)
    (hhalf : (liveBytes : ℚ) < (memoryLimit : ℚ) * sf * (1/2)) :
    preClampGOGC
        { memoryHardLimit := memoryLimit, safetyFactor := sf, minGOGC := mn,
          maxGOGC := mx, allowPeakOverride := false, peakThreshold := 1,
          debugMode := false } memoryLimit liveBytes ≤
      preClampGOGC
        { memoryHardLimit := memoryLimit, safetyFactor := sf, minGOGC := mn,
          maxGOGC := mx, allowPeakOverride := true, peakThreshold := pt,
          debugMode := false } memoryLimit liveBytes := by
  have hl : (0 : ℚ) < (liveBytes : ℚ) := by exact_mod_cast h0
  have hsl0 : (0 : ℚ) < (memoryLimit : ℚ) * sf := by nlinarith
  have hlt : (liveBytes : ℚ) < (memoryLimit : ℚ) * sf := by nlinarith
  have hngt : ¬ ((liveBytes : ℚ) > (memoryLimit : ℚ) * sf) := not_lt.2 hlt.le
  have hcoff : ¬ ((false : Bool) = true ∧
      (liveBytes : ℚ) < (memoryLimit : ℚ) * sf * (1/2)) := by
    simp
  rw [preClampGOGC_normal _ _ _ hngt hcoff, preClampGOGC_peak _ _ _ hngt ⟨rfl, hhalf⟩]
  apply truncQ_mono
  have hnum : (memoryLimit : ℚ) * sf ≤ (memoryLimit : ℚ) * sf * pt := by
    nlinarith [mul_nonneg hsl0.le (sub_nonneg.2 hpt)]
  have hfrac : (memoryLimit : ℚ) * sf / (liveBytes : ℚ) ≤
      (memoryLimit : ℚ) * sf * pt / (liveBytes : ℚ) :=
    (div_le_div_iff_of_pos_right hl).2 hnum
  linarith

/-- C7 witness: at limit 1000, factor 0.7, threshold 1.5, `liveBytes =
175 < 350`, the hypotheses hold and the override-enabled pre-clamp value
dominates the override-disabled one. -/
theorem C7_peak_override_widens_witness :
    ((0 : ℕ) < 175 ∧ (1 : ℚ) ≤ 3/2 ∧ ((175 : ℕ) : ℚ) < (1000 : ℚ) * (7/10) * (1/2)) ∧
      preClampGOGC
          { memoryHardLimit := 1000, safetyFactor := 7/10, minGOGC := 25,
            maxGOGC := 500, allowPeakOverride := false, peakThreshold := 1,
            debugMode := false } 1000 175 ≤
        preClampGOGC
          { memoryHardLimit := 1000, safetyFactor := 7/10, minGOGC := 25,
            maxGOGC := 500, allowPeakOverride := true, peakThreshold := 3/2,
            debugMode := false } 1000 175 :=
  ⟨⟨by norm_num, by norm_num, by norm_num⟩,
    C7_peak_override_widens 1000 (7/10) (3/2) 25 500 175 (by norm_num)
      (by norm_num) (by norm_num)⟩
